import Mathlib

/-!
Verification of the file-identity comparison primitive of the walkdir
repository (src/same_file.rs).  The public entry point is_same_file
dispatches to exactly one of two platform backends:

* the unix backend retrieves metadata for both paths and compares the
  pairs (device number, inode number);
* the windows backend opens a read-attribute handle to each path,
  queries file information by handle while both handles are open, and
  compares five-field keys (volume serial number, file index high/low,
  file size high/low); handles are closed by Drop in reverse
  declaration order on every exit path.

The operating system is modelled abstractly: a UnixFS supplies a
resolution of paths to underlying file objects (the metadata query
follows symbolic links, so a path and a link to the same object resolve
to the same file object) together with the device and inode numbers of
each object; a WinOS supplies CreateFileW and
GetFileInformationByHandle.  The windows backend is embedded together
with the trace of handle events it performs, so that temporal claims
about handle lifetime are statable.
-/

namespace SameFile

abbrev Path := String

/-- Abstract I/O error, standing for std::io::Error. -/
inductive IoError where
  | notFound
  | permissionDenied
  | ioFailure (code : Nat)
  deriving DecidableEq, Repr

/-- Metadata fields used by the unix backend (MetadataExt::dev, ::ino). -/
structure Metadata where
  dev : Nat
  ino : Nat
  deriving DecidableEq, Repr

/-- Abstract underlying file object (what a path resolves to once
symbolic links are followed). -/
abbrev FileObj := Nat

/-- Model of the unix filesystem: fs::metadata follows symbolic links,
resolving a path to a file object (or failing), and the device and
inode numbers are functions of the resolved object. -/
structure UnixFS where
  resolve : Path → Except IoError FileObj
  devOf : FileObj → Nat
  inoOf : FileObj → Nat

/-- Embeds fs::metadata for the unix backend. -/
def UnixFS.metadata (fs : UnixFS) (p : Path) : Except IoError Metadata :=
  match fs.resolve p with
  | .error e => .error e
  | .ok f => .ok ⟨fs.devOf f, fs.inoOf f⟩

/-- Embeds the unix impl_is_same_file: two try!(fs::metadata(..)) calls
followed by comparison of the (dev, ino) pairs. -/
def impl_is_same_file_unix (fs : UnixFS) (p1 p2 : Path) :
    Except IoError Bool :=
  match fs.metadata p1 with
  | .error e => .error e
  | .ok md1 =>
    match fs.metadata p2 with
    | .error e => .error e
    | .ok md2 => .ok (decide ((md1.dev, md1.ino) = (md2.dev, md2.ino)))

/-- Native handle value, standing for winapi HANDLE. -/
abbrev HANDLE := Nat

/-- Fields of BY_HANDLE_FILE_INFORMATION used by the windows backend. -/
structure BY_HANDLE_FILE_INFORMATION where
  dwVolumeSerialNumber : Nat
  nFileIndexHigh : Nat
  nFileIndexLow : Nat
  nFileSizeHigh : Nat
  nFileSizeLow : Nat
  deriving DecidableEq, Repr

def FILE_SHARE_READ : Nat := 1

def FILE_SHARE_WRITE : Nat := 2

def FILE_SHARE_DELETE : Nat := 4

def OPEN_EXISTING : Nat := 3

def FILE_FLAG_BACKUP_SEMANTICS : Nat := 0x02000000

/-- Arguments passed to CreateFileW (the template and security
attributes arguments of the real call are always null in the source and
are omitted). -/
structure CreateFileArgs where
  lpFileName : Path
  dwDesiredAccess : Nat
  dwShareMode : Nat
  dwCreationDisposition : Nat
  dwFlagsAndAttributes : Nat
  deriving DecidableEq, Repr

/-- Model of the windows API surface used by the backend. -/
structure WinOS where
  createFileW : CreateFileArgs → Except IoError HANDLE
  getFileInformationByHandle :
    HANDLE → Except IoError BY_HANDLE_FILE_INFORMATION

/-- Arguments with which open_read_attr invokes CreateFileW: desired
access 0 (attribute read only), all three share modes, OPEN_EXISTING,
FILE_FLAG_BACKUP_SEMANTICS. -/
def open_read_attr_args (p : Path) : CreateFileArgs :=
  { lpFileName := p
    dwDesiredAccess := 0
    dwShareMode := FILE_SHARE_READ ||| FILE_SHARE_WRITE ||| FILE_SHARE_DELETE
    dwCreationDisposition := OPEN_EXISTING
    dwFlagsAndAttributes := FILE_FLAG_BACKUP_SEMANTICS }

/-- Embeds open_read_attr: a single CreateFileW call with the fixed
argument block; INVALID_HANDLE_VALUE becomes the error branch of the
model. -/
def open_read_attr (os : WinOS) (p : Path) : Except IoError HANDLE :=
  os.createFileW (open_read_attr_args p)

/-- Embeds file_info: a single GetFileInformationByHandle call. -/
def file_info (os : WinOS) (h : HANDLE) :
    Except IoError BY_HANDLE_FILE_INFORMATION :=
  os.getFileInformationByHandle h

/-- Observable handle events of one windows-backend execution: a
successful open recording the CreateFileW arguments and the returned
handle, a GetFileInformationByHandle call on a handle, and a CloseHandle
call performed by Drop. -/
inductive Event where
  | openH (a : CreateFileArgs) (h : HANDLE)
  | query (h : HANDLE)
  | close (h : HANDLE)
  deriving DecidableEq, Repr

/-- Five-field identity key composed by the windows backend. -/
def winKeyOf (i : BY_HANDLE_FILE_INFORMATION) :
    Nat × Nat × Nat × Nat × Nat :=
  (i.dwVolumeSerialNumber,
   i.nFileIndexHigh, i.nFileIndexLow,
   i.nFileSizeHigh, i.nFileSizeLow)

/-- Embeds the windows impl_is_same_file together with its event trace.
The source opens h1 then h2 via try!, queries i1 then i2 via try!, and
composes and compares the keys; Rust Drop closes live locals in reverse
declaration order on every exit path (so h2 before h1 once both are
open).  A query event is recorded whenever GetFileInformationByHandle
is invoked, whether or not it succeeds. -/
def impl_is_same_file_windows (os : WinOS) (p1 p2 : Path) :
    Except IoError Bool × List Event :=
  match open_read_attr os p1 with
  | .error e => (.error e, [])
  | .ok h1 =>
    match open_read_attr os p2 with
    | .error e =>
        (.error e, [.openH (open_read_attr_args p1) h1, .close h1])
    | .ok h2 =>
      match file_info os h1 with
      | .error e =>
          (.error e,
           [.openH (open_read_attr_args p1) h1,
            .openH (open_read_attr_args p2) h2,
            .query h1, .close h2, .close h1])
      | .ok i1 =>
        match file_info os h2 with
        | .error e =>
            (.error e,
             [.openH (open_read_attr_args p1) h1,
              .openH (open_read_attr_args p2) h2,
              .query h1, .query h2, .close h2, .close h1])
        | .ok i2 =>
            (.ok (decide (winKeyOf i1 = winKeyOf i2)),
             [.openH (open_read_attr_args p1) h1,
              .openH (open_read_attr_args p2) h2,
              .query h1, .query h2, .close h2, .close h1])

/-- Active platform backend: exactly one of the two variants is
compiled in the source (cfg(unix) / cfg(windows)). -/
inductive Backend where
  | unix (fs : UnixFS)
  | windows (os : WinOS)

/-- Embeds impl_is_same_file, the cfg-selected backend routine. -/
def impl_is_same_file : Backend → Path → Path → Except IoError Bool
  | .unix fs, p1, p2 => impl_is_same_file_unix fs p1 p2
  | .windows os, p1, p2 => (impl_is_same_file_windows os p1 p2).1

/-- Embeds the public is_same_file, which forwards to the active
backend. -/
def is_same_file (b : Backend) (p1 p2 : Path) : Except IoError Bool :=
  impl_is_same_file b p1 p2

/-- Platform-defined identity key of a path (FileIdentityKey of the
spec): (dev, ino) on the unix variant, the five-field tuple on the
windows variant. -/
inductive Key where
  | unixKey (dev ino : Nat)
  | winKey (vol idxHi idxLo szHi szLo : Nat)
  deriving DecidableEq, Repr

/-- Per-path identity-key computation of the active backend: metadata
on unix; open then query on windows. -/
def keyOf : Backend → Path → Except IoError Key
  | .unix fs, p =>
    match fs.metadata p with
    | .error e => .error e
    | .ok m => .ok (.unixKey m.dev m.ino)
  | .windows os, p =>
    match open_read_attr os p with
    | .error e => .error e
    | .ok h =>
      match file_info os h with
      | .error e => .error e
      | .ok i =>
          .ok (.winKey i.dwVolumeSerialNumber
                 i.nFileIndexHigh i.nFileIndexLow
                 i.nFileSizeHigh i.nFileSizeLow)

/-- Handles recorded by open events of a trace, in order. -/
def opensOf : List Event → List HANDLE
  | [] => []
  | .openH _ h :: t => h :: opensOf t
  | _ :: t => opensOf t

/-- Handles recorded by query events of a trace, in order. -/
def queriesOf : List Event → List HANDLE
  | [] => []
  | .query h :: t => h :: queriesOf t
  | _ :: t => queriesOf t

/-- Handles recorded by close events of a trace, in order. -/
def closesOf : List Event → List HANDLE
  | [] => []
  | .close h :: t => h :: closesOf t
  | _ :: t => closesOf t

/-- Holds of a trace suffix consisting only of close events. -/
def closePhase : List Event → Bool
  | [] => true
  | .close _ :: t => closePhase t
  | _ => false

/-- Holds of a trace suffix of query events followed by close events. -/
def queryPhase : List Event → Bool
  | .query _ :: t => queryPhase t
  | l => closePhase l

/-- Holds of a trace of open events, then query events, then close
events: no handle is released before any query, and no handle is opened
or queried after a release. -/
def openPhase : List Event → Bool
  | .openH _ _ :: t => openPhase t
  | l => queryPhase l

/-- Scoped-handle discipline of a trace: phase order
opens-queries-closes, the closed handles are exactly the opened handles
in reverse order, and every queried handle was opened. -/
def wellScoped (t : List Event) : Prop :=
  openPhase t = true ∧ closesOf t = (opensOf t).reverse ∧
    ∀ h ∈ queriesOf t, h ∈ opensOf t

/-- Concrete unix filesystem used to instantiate theorems: paths a and
alink resolve to file object 1 (a hard or symbolic link pair), path b
to file object 2, every other path fails with notFound. -/
def wFS : UnixFS :=
  { resolve := fun p =>
      if p = "a" then .ok 1
      else if p = "alink" then .ok 1
      else if p = "b" then .ok 2
      else .error .notFound
    devOf := fun _ => 10
    inoOf := fun f => f }

/-- Concrete windows API model used to instantiate theorems: paths a,
b and c open as handles 1, 2 and 3, every other path fails to open;
handles 1 and 2 carry distinct file information, every other handle
(including 3) fails the information query. -/
def wOS : WinOS :=
  { createFileW := fun a =>
      if a.lpFileName = "a" then .ok 1
      else if a.lpFileName = "b" then .ok 2
      else if a.lpFileName = "c" then .ok 3
      else .error .notFound
    getFileInformationByHandle := fun h =>
      if h = 1 then .ok ⟨7, 0, 11, 0, 0⟩
      else if h = 2 then .ok ⟨7, 0, 12, 0, 3⟩
      else .error (.ioFailure 6) }

/-- Helper: when both per-path key computations succeed, the call
returns the decided equality of the two keys. -/
theorem isSameFile_eq_of_keys (b : Backend) (p1 p2 : Path) (k1 k2 : Key)
    (h1 : keyOf b p1 = .ok k1) (h2 : keyOf b p2 = .ok k2) :
    is_same_file b p1 p2 = .ok (decide (k1 = k2)) := by
  cases b with
  | unix fs =>
    simp only [keyOf] at h1 h2
    cases hm1 : fs.metadata p1 with
    | error e => rw [hm1] at h1; exact absurd h1 (by simp)
    | ok m1 =>
      cases hm2 : fs.metadata p2 with
      | error e => rw [hm2] at h2; exact absurd h2 (by simp)
      | ok m2 =>
        rw [hm1] at h1
        rw [hm2] at h2
        injection h1 with h1
        injection h2 with h2
        subst h1
        subst h2
        simp [is_same_file, impl_is_same_file, impl_is_same_file_unix,
          hm1, hm2, decide_eq_decide, Prod.ext_iff]
  | windows os =>
    simp only [keyOf] at h1 h2
    cases ho1 : open_read_attr os p1 with
    | error e => rw [ho1] at h1; exact absurd h1 (by simp)
    | ok hh1 =>
      cases ho2 : open_read_attr os p2 with
      | error e => rw [ho2] at h2; exact absurd h2 (by simp)
      | ok hh2 =>
        rw [ho1] at h1
        rw [ho2] at h2
        dsimp only at h1 h2
        cases hi1 : file_info os hh1 with
        | error e => rw [hi1] at h1; exact absurd h1 (by simp)
        | ok i1 =>
          cases hi2 : file_info os hh2 with
          | error e => rw [hi2] at h2; exact absurd h2 (by simp)
          | ok i2 =>
            rw [hi1] at h1
            rw [hi2] at h2
            injection h1 with h1
            injection h2 with h2
            subst h1
            subst h2
            simp [is_same_file, impl_is_same_file, impl_is_same_file_windows,
              ho1, ho2, hi1, hi2, winKeyOf, decide_eq_decide, Prod.ext_iff]

/-- Claim C1: for every pair of paths whose key computations succeed,
the public entry point is_same_file returns ok true exactly when the
two identity keys compare equal and ok false otherwise, and it forwards
to the single active platform backend with no other processing. -/
theorem dispatch_forwards_and_compares_keys (b : Backend) (p1 p2 : Path) :
    is_same_file b p1 p2 = impl_is_same_file b p1 p2 ∧
    ∀ k1 k2, keyOf b p1 = .ok k1 → keyOf b p2 = .ok k2 →
      is_same_file b p1 p2 = .ok (decide (k1 = k2)) :=
  ⟨rfl, fun k1 k2 h1 h2 => isSameFile_eq_of_keys b p1 p2 k1 k2 h1 h2⟩

/-- Witness for C1 on the concrete filesystem: paths a and b have
distinct keys, so the call returns ok false. -/
theorem dispatch_forwards_and_compares_keys_witness :
    is_same_file (.unix wFS) "a" "b" = .ok false := by
  have h := (dispatch_forwards_and_compares_keys (.unix wFS) "a" "b").2
    (Key.unixKey 10 1) (Key.unixKey 10 2) rfl rfl
  rw [h]
  rfl

/-- Claim C2: in the unix backend, when both metadata queries succeed
the result is ok of the equality of the (dev, ino) pairs; a failure of
the first query short-circuits the call with that failure, and so does
a failure of the second query after the first succeeded.  The first
conjunct quantifies over every filesystem model, so the result on a
first-path failure is independent of anything stored at the second
path. -/
theorem unix_backend_spec (fs : UnixFS) (p1 p2 : Path) :
    (∀ m1 m2, fs.metadata p1 = .ok m1 → fs.metadata p2 = .ok m2 →
      impl_is_same_file_unix fs p1 p2 =
        .ok (decide ((m1.dev, m1.ino) = (m2.dev, m2.ino)))) ∧
    (∀ e, fs.metadata p1 = .error e →
      impl_is_same_file_unix fs p1 p2 = .error e) ∧
    (∀ m1 e, fs.metadata p1 = .ok m1 → fs.metadata p2 = .error e →
      impl_is_same_file_unix fs p1 p2 = .error e) := by
  refine ⟨?_, ?_, ?_⟩
  · intro m1 m2 h1 h2
    simp [impl_is_same_file_unix, h1, h2]
  · intro e h1
    simp [impl_is_same_file_unix, h1]
  · intro m1 e h1 h2
    simp [impl_is_same_file_unix, h1, h2]

/-- Witness for C2 on the concrete filesystem: distinct inodes give ok
false, a missing first path gives its error, a missing second path
gives its error. -/
theorem unix_backend_spec_witness :
    impl_is_same_file_unix wFS "a" "b" = .ok false ∧
    impl_is_same_file_unix wFS "missing" "a" = .error .notFound ∧
    impl_is_same_file_unix wFS "a" "missing" = .error .notFound := by
  refine ⟨?_, ?_, ?_⟩
  · have h := (unix_backend_spec wFS "a" "b").1 ⟨10, 1⟩ ⟨10, 2⟩ rfl rfl
    rw [h]
    rfl
  · exact (unix_backend_spec wFS "missing" "a").2.1 .notFound rfl
  · exact (unix_backend_spec wFS "a" "missing").2.2 ⟨10, 1⟩ .notFound rfl rfl

/-- Claim C3: in the windows backend, when both opens and both
information queries succeed, the result is ok of the exact equality of
the two five-field keys (volume serial number, file index high, file
index low, file size high, file size low). -/
theorem windows_backend_key_comparison (os : WinOS) (p1 p2 : Path)
    (h1 h2 : HANDLE) (i1 i2 : BY_HANDLE_FILE_INFORMATION)
    (ho1 : open_read_attr os p1 = .ok h1)
    (ho2 : open_read_attr os p2 = .ok h2)
    (hi1 : file_info os h1 = .ok i1)
    (hi2 : file_info os h2 = .ok i2) :
    (impl_is_same_file_windows os p1 p2).1 =
      .ok (decide
        ((i1.dwVolumeSerialNumber, i1.nFileIndexHigh, i1.nFileIndexLow,
          i1.nFileSizeHigh, i1.nFileSizeLow) =
         (i2.dwVolumeSerialNumber, i2.nFileIndexHigh, i2.nFileIndexLow,
          i2.nFileSizeHigh, i2.nFileSizeLow))) := by
  simp [impl_is_same_file_windows, ho1, ho2, hi1, hi2, winKeyOf]

/-- Witness for C3 on the concrete windows model: paths a and b carry
keys differing in index low and size low, so the result is ok false. -/
theorem windows_backend_key_comparison_witness :
    (impl_is_same_file_windows wOS "a" "b").1 = .ok false := by
  have h := windows_backend_key_comparison wOS "a" "b" 1 2
    ⟨7, 0, 11, 0, 0⟩ ⟨7, 0, 12, 0, 3⟩ rfl rfl rfl rfl
  rw [h]
  rfl

/-- Claim C4: on either backend, a failure to query either path makes
the whole call fail with that I/O error and no boolean is substituted;
on the unix backend a first-path failure propagates for every possible
content of the second path (the statement quantifies over the whole
filesystem model), and on the windows backend a failed first open
returns with an empty event trace, so the second path was never opened
or queried. -/
theorem error_propagation (fs : UnixFS) (os : WinOS) (p1 p2 : Path) :
    (∀ e, fs.metadata p1 = .error e →
      is_same_file (.unix fs) p1 p2 = .error e) ∧
    (∀ m1 e, fs.metadata p1 = .ok m1 → fs.metadata p2 = .error e →
      is_same_file (.unix fs) p1 p2 = .error e) ∧
    (∀ e, open_read_attr os p1 = .error e →
      impl_is_same_file_windows os p1 p2 = (.error e, [])) ∧
    (∀ h1 e, open_read_attr os p1 = .ok h1 →
      open_read_attr os p2 = .error e →
      is_same_file (.windows os) p1 p2 = .error e) ∧
    (∀ h1 h2 e, open_read_attr os p1 = .ok h1 →
      open_read_attr os p2 = .ok h2 → file_info os h1 = .error e →
      is_same_file (.windows os) p1 p2 = .error e) ∧
    (∀ h1 h2 i1 e, open_read_attr os p1 = .ok h1 →
      open_read_attr os p2 = .ok h2 → file_info os h1 = .ok i1 →
      file_info os h2 = .error e →
      is_same_file (.windows os) p1 p2 = .error e) := by
  refine ⟨?_, ?_, ?_, ?_, ?_, ?_⟩
  · intro e h1
    simp [is_same_file, impl_is_same_file, impl_is_same_file_unix, h1]
  · intro m1 e h1 h2
    simp [is_same_file, impl_is_same_file, impl_is_same_file_unix, h1, h2]
  · intro e h1
    simp [impl_is_same_file_windows, h1]
  · intro h1 e ho1 ho2
    simp [is_same_file, impl_is_same_file, impl_is_same_file_windows,
      ho1, ho2]
  · intro h1 h2 e ho1 ho2 hi1
    simp [is_same_file, impl_is_same_file, impl_is_same_file_windows,
      ho1, ho2, hi1]
  · intro h1 h2 i1 e ho1 ho2 hi1 hi2
    simp [is_same_file, impl_is_same_file, impl_is_same_file_windows,
      ho1, ho2, hi1, hi2]

/-- Witness for C4 on the concrete models: a nonexistent path yields
the error, never a boolean, at each failure point of both backends. -/
theorem error_propagation_witness :
    is_same_file (.unix wFS) "missing" "a" = .error .notFound ∧
    is_same_file (.unix wFS) "a" "missing" = .error .notFound ∧
    impl_is_same_file_windows wOS "missing" "a" =
      (.error .notFound, []) ∧
    is_same_file (.windows wOS) "a" "missing" = .error .notFound ∧
    is_same_file (.windows wOS) "c" "a" = .error (.ioFailure 6) ∧
    is_same_file (.windows wOS) "a" "c" = .error (.ioFailure 6) := by
  refine ⟨?_, ?_, ?_, ?_, ?_, ?_⟩
  · exact (error_propagation wFS wOS "missing" "a").1 .notFound rfl
  · exact (error_propagation wFS wOS "a" "missing").2.1 ⟨10, 1⟩ .notFound
      rfl rfl
  · exact (error_propagation wFS wOS "missing" "a").2.2.1 .notFound rfl
  · exact (error_propagation wFS wOS "a" "missing").2.2.2.1 1 .notFound
      rfl rfl
  · exact (error_propagation wFS wOS "c" "a").2.2.2.2.1 3 1 (.ioFailure 6)
      rfl rfl rfl
  · exact (error_propagation wFS wOS "a" "c").2.2.2.2.2 1 3
      ⟨7, 0, 11, 0, 0⟩ (.ioFailure 6) rfl rfl rfl rfl

/-- Claim C5: two paths that resolve to the same underlying file object
at the moment of computation (for example a path and a hard link to it,
or a path and a symbolic link resolving to it) receive equal identity
keys, so is_same_file returns ok true. -/
theorem same_object_keys_equal (fs : UnixFS) (p1 p2 : Path) (f : FileObj)
    (h1 : fs.resolve p1 = .ok f) (h2 : fs.resolve p2 = .ok f) :
    keyOf (.unix fs) p1 = keyOf (.unix fs) p2 ∧
    is_same_file (.unix fs) p1 p2 = .ok true := by
  constructor
  · simp [keyOf, UnixFS.metadata, h1, h2]
  · simp [is_same_file, impl_is_same_file, impl_is_same_file_unix,
      UnixFS.metadata, h1, h2]

/-- Witness for C5 on the concrete filesystem: alink is a link to the
same file object as a, and the call returns ok true. -/
theorem same_object_keys_equal_witness :
    keyOf (.unix wFS) "a" = keyOf (.unix wFS) "alink" ∧
    is_same_file (.unix wFS) "a" "alink" = .ok true :=
  same_object_keys_equal wFS "a" "alink" 1 rfl rfl

/-- Claim C6: for every path whose key computation succeeds on the
active backend, comparing the path with itself returns ok true. -/
theorem is_same_file_refl (b : Backend) (p : Path) (k : Key)
    (h : keyOf b p = .ok k) :
    is_same_file b p p = .ok true := by
  have := isSameFile_eq_of_keys b p p k k h h
  simpa using this

/-- Witness for C6 on the concrete filesystem at path a. -/
theorem is_same_file_refl_witness :
    is_same_file (.unix wFS) "a" "a" = .ok true :=
  is_same_file_refl (.unix wFS) "a" (.unixKey 10 1) rfl

/-- Claim C7: on every execution of the windows backend the event trace
obeys the scoped-handle discipline: all open events precede all
information queries, which precede all close events (so neither handle
is released before either query), the closed handles are exactly the
opened handles in reverse order (so every opened handle is closed on
every exit path, normal or early error), every queried handle was
opened, and whenever any query is performed both handles had been
opened. -/
theorem windows_handle_discipline (os : WinOS) (p1 p2 : Path) :
    wellScoped (impl_is_same_file_windows os p1 p2).2 ∧
    ∀ h, Event.query h ∈ (impl_is_same_file_windows os p1 p2).2 →
      (opensOf (impl_is_same_file_windows os p1 p2).2).length = 2 := by
  cases ho1 : open_read_attr os p1 with
  | error e =>
    simp [impl_is_same_file_windows, ho1, wellScoped,
      opensOf, closesOf, queriesOf, openPhase, queryPhase, closePhase]
  | ok h1 =>
    cases ho2 : open_read_attr os p2 with
    | error e =>
      simp [impl_is_same_file_windows, ho1, ho2, wellScoped,
        opensOf, closesOf, queriesOf, openPhase, queryPhase, closePhase]
    | ok h2 =>
      cases hi1 : file_info os h1 with
      | error e =>
        simp [impl_is_same_file_windows, ho1, ho2, hi1, wellScoped,
          opensOf, closesOf, queriesOf, openPhase, queryPhase, closePhase]
      | ok i1 =>
        cases hi2 : file_info os h2 with
        | error e =>
          simp [impl_is_same_file_windows, ho1, ho2, hi1, hi2, wellScoped,
            opensOf, closesOf, queriesOf, openPhase, queryPhase, closePhase]
        | ok i2 =>
          simp [impl_is_same_file_windows, ho1, ho2, hi1, hi2, wellScoped,
            opensOf, closesOf, queriesOf, openPhase, queryPhase, closePhase]

/-- Witness for C7 on the concrete windows model: the trace of the run
on paths a and b contains the query of handle 1, and its open list has
length two. -/
theorem windows_handle_discipline_witness :
    (opensOf (impl_is_same_file_windows wOS "a" "b").2).length = 2 :=
  (windows_handle_discipline wOS "a" "b").2 1 (by decide)

/-- Claim C8: open_read_attr opens every handle through CreateFileW
with desired access 0 (read-attribute mode), all of read, write and
delete sharing granted, disposition OPEN_EXISTING (the path must
already exist) and FILE_FLAG_BACKUP_SEMANTICS (so a directory path can
be opened as well as a file path); every open event of a backend run
carries exactly these flags; and when an open fails the whole call
fails with that OS error. -/
theorem open_read_attr_mode (os : WinOS) (p1 p2 : Path) :
    (∀ q, open_read_attr os q =
      os.createFileW
        { lpFileName := q
          dwDesiredAccess := 0
          dwShareMode :=
            FILE_SHARE_READ ||| FILE_SHARE_WRITE ||| FILE_SHARE_DELETE
          dwCreationDisposition := OPEN_EXISTING
          dwFlagsAndAttributes := FILE_FLAG_BACKUP_SEMANTICS }) ∧
    (∀ a h, Event.openH a h ∈ (impl_is_same_file_windows os p1 p2).2 →
      a.dwDesiredAccess = 0 ∧
      a.dwShareMode =
        FILE_SHARE_READ ||| FILE_SHARE_WRITE ||| FILE_SHARE_DELETE ∧
      a.dwCreationDisposition = OPEN_EXISTING ∧
      a.dwFlagsAndAttributes = FILE_FLAG_BACKUP_SEMANTICS) ∧
    (∀ e, os.createFileW (open_read_attr_args p1) = .error e →
      is_same_file (.windows os) p1 p2 = .error e) ∧
    (∀ h1 e, os.createFileW (open_read_attr_args p1) = .ok h1 →
      os.createFileW (open_read_attr_args p2) = .error e →
      is_same_file (.windows os) p1 p2 = .error e) := by
  refine ⟨fun q => rfl, ?_, ?_, ?_⟩
  · intro a h hmem
    have hargs : a = open_read_attr_args p1 ∨ a = open_read_attr_args p2 := by
      cases ho1 : open_read_attr os p1 with
      | error e =>
        simp only [impl_is_same_file_windows, ho1] at hmem
        simp at hmem
      | ok h1 =>
        cases ho2 : open_read_attr os p2 with
        | error e =>
          simp only [impl_is_same_file_windows, ho1, ho2] at hmem
          simp at hmem
          exact Or.inl hmem.1
        | ok h2 =>
          cases hi1 : file_info os h1 with
          | error e =>
            simp only [impl_is_same_file_windows, ho1, ho2, hi1] at hmem
            simp at hmem
            rcases hmem with ⟨ha, _⟩ | ⟨ha, _⟩
            · exact Or.inl ha
            · exact Or.inr ha
          | ok i1 =>
            cases hi2 : file_info os h2 with
            | error e =>
              simp only [impl_is_same_file_windows, ho1, ho2, hi1, hi2] at hmem
              simp at hmem
              rcases hmem with ⟨ha, _⟩ | ⟨ha, _⟩
              · exact Or.inl ha
              · exact Or.inr ha
            | ok i2 =>
              simp only [impl_is_same_file_windows, ho1, ho2, hi1, hi2] at hmem
              simp at hmem
              rcases hmem with ⟨ha, _⟩ | ⟨ha, _⟩
              · exact Or.inl ha
              · exact Or.inr ha
    rcases hargs with ha | ha <;> subst ha <;>
      exact ⟨rfl, rfl, rfl, rfl⟩
  · intro e h1
    simp [is_same_file, impl_is_same_file, impl_is_same_file_windows,
      open_read_attr, h1]
  · intro h1 e ho1 ho2
    simp [is_same_file, impl_is_same_file, impl_is_same_file_windows,
      open_read_attr, ho1, ho2]

/-- Witness for C8 on the concrete windows model: the open event of
handle 1 in the run on paths a and b carries the fixed flags, and a
missing first path fails the whole call with its OS error. -/
theorem open_read_attr_mode_witness :
    (open_read_attr_args "a").dwDesiredAccess = 0 ∧
    is_same_file (.windows wOS) "missing" "a" = .error .notFound := by
  constructor
  · exact ((open_read_attr_mode wOS "a" "b").2.1
      (open_read_attr_args "a") 1 (by decide)).1
  · exact (open_read_attr_mode wOS "missing" "a").2.2.1 .notFound rfl

/-- Agreement of two backend models on everything a run on the two
given paths can observe: on unix, equal metadata answers at the two
paths; on windows, equal CreateFileW answers at the two open-argument
blocks and equal file-information answers at every handle either open
can return.  Mixed platforms never agree. -/
def agreesAt : Backend → Backend → Path → Path → Prop
  | .unix fs, .unix fs2, p1, p2 =>
      fs.metadata p1 = fs2.metadata p1 ∧ fs.metadata p2 = fs2.metadata p2
  | .windows os, .windows os2, p1, p2 =>
      os.createFileW (open_read_attr_args p1) =
        os2.createFileW (open_read_attr_args p1) ∧
      os.createFileW (open_read_attr_args p2) =
        os2.createFileW (open_read_attr_args p2) ∧
      ∀ h, (os.createFileW (open_read_attr_args p1) = .ok h ∨
            os.createFileW (open_read_attr_args p2) = .ok h) →
        os.getFileInformationByHandle h = os2.getFileInformationByHandle h
  | _, _, _, _ => False

/-- Claim C9: the call keeps no persistent state: it is a pure function
of the backend model (the embedding returns no updated state, so no
state observable by a later call is changed), and its result depends
only on the answers of the metadata or handle queries at the two
argument paths: any two models that agree on those answers produce the
same result. -/
theorem result_depends_only_on_path_queries (b b2 : Backend)
    (p1 p2 : Path) (hag : agreesAt b b2 p1 p2) :
    is_same_file b p1 p2 = is_same_file b2 p1 p2 := by
  cases b with
  | unix fs =>
    cases b2 with
    | unix fs2 =>
      obtain ⟨h1, h2⟩ := hag
      simp only [is_same_file, impl_is_same_file, impl_is_same_file_unix,
        h1, h2]
    | windows os2 => exact absurd hag (by simp [agreesAt])
  | windows os =>
    cases b2 with
    | unix fs2 => exact absurd hag (by simp [agreesAt])
    | windows os2 =>
      obtain ⟨h1, h2, hinfo⟩ := hag
      simp only [is_same_file, impl_is_same_file, impl_is_same_file_windows,
        open_read_attr]
      rw [← h1, ← h2]
      cases ho1 : os.createFileW (open_read_attr_args p1) with
      | error e => rfl
      | ok hh1 =>
        cases ho2 : os.createFileW (open_read_attr_args p2) with
        | error e => rfl
        | ok hh2 =>
          have e1 : file_info os hh1 = file_info os2 hh1 :=
            hinfo hh1 (Or.inl ho1)
          have e2 : file_info os hh2 = file_info os2 hh2 :=
            hinfo hh2 (Or.inr ho2)
          dsimp only
          rw [← e1, ← e2]

/-- Second concrete unix filesystem for the C9 witness: it answers like
wFS on paths a and b but stores a different file at path other. -/
def wFS2 : UnixFS :=
  { resolve := fun p =>
      if p = "other" then .ok 77
      else wFS.resolve p
    devOf := wFS.devOf
    inoOf := wFS.inoOf }

/-- Witness for C9: wFS and wFS2 differ at path other but agree at
paths a and b, so both give the same answer there. -/
theorem result_depends_only_on_path_queries_witness :
    is_same_file (.unix wFS) "a" "b" = is_same_file (.unix wFS2) "a" "b" :=
  result_depends_only_on_path_queries (.unix wFS) (.unix wFS2) "a" "b"
    ⟨rfl, rfl⟩

/-- Claim C10: when both key computations succeed against an unchanged
backend model, swapping the two argument paths gives the same boolean:
the comparison is symmetric. -/
theorem is_same_file_symm (b : Backend) (p1 p2 : Path) (k1 k2 : Key)
    (h1 : keyOf b p1 = .ok k1) (h2 : keyOf b p2 = .ok k2) :
    is_same_file b p1 p2 = is_same_file b p2 p1 := by
  rw [isSameFile_eq_of_keys b p1 p2 k1 k2 h1 h2,
    isSameFile_eq_of_keys b p2 p1 k2 k1 h2 h1]
  simp [decide_eq_decide, eq_comm]

/-- Witness for C10 on the concrete filesystem at paths a and b. -/
theorem is_same_file_symm_witness :
    is_same_file (.unix wFS) "a" "b" = is_same_file (.unix wFS) "b" "a" :=
  is_same_file_symm (.unix wFS) "a" "b" (.unixKey 10 1) (.unixKey 10 2)
    rfl rfl

end SameFile
